import Mathlib

/-!
Shallow embedding of the rbdimmerESP32 AC dimmer library
(src/rbdimmerESP32.h, src/rbdimmerESP32.cpp) and proofs about its
brightness-curve conversion, frequency auto-measurement, firing state
machine, channel registry and public setters.

Machine integers are modelled as `Nat` with explicit `% 2^32` (for
`uint32_t`) and `% 2^8` (for `uint8_t`) wherever the C arithmetic can
wrap.  External platform calls (GPIO configuration and writes, esp_timer
creation/start/stop, malloc) are modelled by an explicit effect record
`SysEffects`; their failure paths are not modelled (each external call is
embedded along its success path, as the claims under study only concern
paths decided before or independently of those failures).
-/

namespace RBDimmer

/-- Constants from rbdimmerESP32.h. -/
def RBDIMMER_MAX_PHASES : Nat := 4

def RBDIMMER_MAX_CHANNELS : Nat := 8

def RBDIMMER_DEFAULT_PULSE_WIDTH_US : Nat := 50

def RBDIMMER_DEFAULT_FREQUENCY : Nat := 0

def RBDIMMER_FREQUENCY_MIN : Nat := 45

def RBDIMMER_FREQUENCY_MAX : Nat := 65

def RBDIMMER_MIN_DELAY_US : Nat := 50

/-- Number of GPIOs on the ESP32 target: `GPIO_NUM_MAX` from driver/gpio.h
(SoC-dependent constant; 40 on the classic ESP32). -/
def GPIO_NUM_MAX : Nat := 40

/-- Modulus of `uint32_t` arithmetic. -/
def UINT32_MOD : Nat := 4294967296

/-- Modulus of `uint8_t` arithmetic. -/
def UINT8_MOD : Nat := 256

/-- Wrapping `uint32_t` subtraction `a - b` (both operands reduced
mod 2^32 in C; callers pass values already below 2^32). -/
def u32_sub (a b : Nat) : Nat := (a + UINT32_MOD - b) % UINT32_MOD

/-- Error codes `rbdimmer_err_t` from rbdimmerESP32.h. -/
inductive rbdimmer_err_t where
  | RBDIMMER_OK
  | RBDIMMER_ERR_INVALID_ARG
  | RBDIMMER_ERR_NO_MEMORY
  | RBDIMMER_ERR_NOT_FOUND
  | RBDIMMER_ERR_ALREADY_EXIST
  | RBDIMMER_ERR_TIMER_FAILED
  | RBDIMMER_ERR_GPIO_FAILED
  deriving DecidableEq, Repr

/-- Brightness curve selector `rbdimmer_curve_t` from rbdimmerESP32.h. -/
inductive rbdimmer_curve_t where
  | RBDIMMER_CURVE_LINEAR
  | RBDIMMER_CURVE_RMS
  | RBDIMMER_CURVE_LOGARITHMIC
  | RBDIMMER_CURVE_CUSTOM
  deriving DecidableEq, Repr

/-- Firing state machine states `timer_state_t` from rbdimmerESP32.h. -/
inductive timer_state_t where
  | TIMER_STATE_IDLE
  | TIMER_STATE_DELAY
  | TIMER_STATE_PULSE_ON
  deriving DecidableEq, Repr

/-- Linear brightness-to-delay table built by `init_level_tables`:
entry `i` is `100 - i` (the loop only writes indices 0..100; `Nat`
truncated subtraction coincides with the C value on that range). -/
def level_to_delay_table_linear (i : Nat) : Nat := 100 - i

/-- RMS brightness-to-delay table built by `init_level_tables`.  The C
code fills it once at startup with
`round(100 * acos(sqrt(i/100)) / pi)` for `0 < i < 100` (computed in
float/double), `100` at `i = 0` and `0` at `i = 100`.  The resulting
101 constant byte values are tabulated here; each middle entry agrees
with exact real-number rounding of the same formula. -/
def level_to_delay_table_rms_values : List Nat :=
  [100, 47, 45, 44, 44, 43, 42, 41, 41, 40, 40, 39, 39, 38, 38, 37, 37,
   36, 36, 36, 35, 35, 34, 34, 34, 33, 33, 33, 32, 32, 32, 31, 31, 31,
   30, 30, 30, 29, 29, 29, 28, 28, 28, 27, 27, 27, 26, 26, 26, 25, 25,
   25, 24, 24, 24, 23, 23, 23, 22, 22, 22, 21, 21, 21, 20, 20, 20, 19,
   19, 19, 18, 18, 18, 17, 17, 17, 16, 16, 16, 15, 15, 14, 14, 14, 13,
   13, 12, 12, 11, 11, 10, 10, 9, 9, 8, 7, 6, 6, 5, 3, 0]

/-- Lookup in the RMS table (indices used by the code are 1..99). -/
def level_to_delay_table_rms (i : Nat) : Nat :=
  level_to_delay_table_rms_values.getD i 0

/-- Logarithmic brightness-to-delay table built by `init_level_tables`.
The C code fills it once at startup with
`round(100 * (1 - log10(1 + 9*i/100)))` for `0 < i < 100` (computed in
float/double), `100` at `i = 0` and `0` at `i = 100`.  The resulting
101 constant byte values are tabulated here; each middle entry agrees
with exact real-number rounding of the same formula. -/
def level_to_delay_table_log_values : List Nat :=
  [100, 96, 93, 90, 87, 84, 81, 79, 76, 74, 72, 70, 68, 66, 65, 63, 61,
   60, 58, 57, 55, 54, 53, 51, 50, 49, 48, 46, 45, 44, 43, 42, 41, 40,
   39, 38, 37, 36, 35, 35, 34, 33, 32, 31, 30, 30, 29, 28, 27, 27, 26,
   25, 25, 24, 23, 23, 22, 21, 21, 20, 19, 19, 18, 18, 17, 16, 16, 15,
   15, 14, 14, 13, 13, 12, 12, 11, 11, 10, 10, 9, 9, 8, 8, 7, 7, 6, 6,
   5, 5, 5, 4, 4, 3, 3, 2, 2, 2, 1, 1, 0, 0]

/-- Lookup in the logarithmic table (indices used by the code are 1..99). -/
def level_to_delay_table_log (i : Nat) : Nat :=
  level_to_delay_table_log_values.getD i 0

/-- Table selection made by the `switch (curve_type)` inside
`level_to_delay`: RMS and LOGARITHMIC pick their tables, LINEAR and the
`default` case (hence CUSTOM) pick the linear table. -/
def curve_table (curve_type : rbdimmer_curve_t) (i : Nat) : Nat :=
  match curve_type with
  | rbdimmer_curve_t.RBDIMMER_CURVE_RMS => level_to_delay_table_rms i
  | rbdimmer_curve_t.RBDIMMER_CURVE_LOGARITHMIC => level_to_delay_table_log i
  | rbdimmer_curve_t.RBDIMMER_CURVE_LINEAR => level_to_delay_table_linear i
  | rbdimmer_curve_t.RBDIMMER_CURVE_CUSTOM => level_to_delay_table_linear i

/-- Embedding of `level_to_delay` (rbdimmerESP32.cpp).  `level_percent`
is a `uint8_t` value (0..255), `half_cycle_us` a `uint32_t` value; the
multiplication `half_cycle_us * delay_percent` and the subtraction
`half_cycle_us - RBDIMMER_DEFAULT_PULSE_WIDTH_US` are `uint32_t`
arithmetic, hence the explicit wrapping. -/
def level_to_delay (level_percent half_cycle_us : Nat)
    (curve_type : rbdimmer_curve_t) : Nat :=
  if 100 ≤ level_percent then RBDIMMER_MIN_DELAY_US
  else if level_percent = 0 then
    u32_sub half_cycle_us RBDIMMER_DEFAULT_PULSE_WIDTH_US
  else
    let delay_percent := curve_table curve_type level_percent
    let delay_us := half_cycle_us * delay_percent % UINT32_MOD / 100
    let delay_us :=
      if delay_us < RBDIMMER_MIN_DELAY_US then RBDIMMER_MIN_DELAY_US
      else delay_us
    if u32_sub half_cycle_us RBDIMMER_DEFAULT_PULSE_WIDTH_US < delay_us
    then u32_sub half_cycle_us RBDIMMER_DEFAULT_PULSE_WIDTH_US
    else delay_us

/-- Each curve table entry the code can select is at most 100. -/
theorem curve_table_le_100 (c : rbdimmer_curve_t) (i : Nat) :
    curve_table c i ≤ 100 := by
  have hrms : ∀ j, j < 101 → level_to_delay_table_rms j ≤ 100 := by decide
  have hlog : ∀ j, j < 101 → level_to_delay_table_log j ≤ 100 := by decide
  have hbig_rms : 101 ≤ i → level_to_delay_table_rms i ≤ 100 := by
    intro h
    unfold level_to_delay_table_rms
    rw [List.getD_eq_default]
    · exact Nat.zero_le 100
    · simp [level_to_delay_table_rms_values]
      omega
  have hbig_log : 101 ≤ i → level_to_delay_table_log i ≤ 100 := by
    intro h
    unfold level_to_delay_table_log
    rw [List.getD_eq_default]
    · exact Nat.zero_le 100
    · simp [level_to_delay_table_log_values]
      omega
  cases c with
  | RBDIMMER_CURVE_LINEAR => exact Nat.sub_le 100 i
  | RBDIMMER_CURVE_CUSTOM => exact Nat.sub_le 100 i
  | RBDIMMER_CURVE_RMS =>
      rcases Nat.lt_or_ge i 101 with h | h
      · exact hrms i h
      · exact hbig_rms h
  | RBDIMMER_CURVE_LOGARITHMIC =>
      rcases Nat.lt_or_ge i 101 with h | h
      · exact hlog i h
      · exact hbig_log h

/-- One-step monotonicity of every curve table on the index range the
code uses (1..99, extended to 0..100). -/
theorem curve_table_step (c : rbdimmer_curve_t) :
    ∀ i, i < 100 → curve_table c (i + 1) ≤ curve_table c i := by
  cases c <;> decide

/-- Stepwise non-increasing implies non-increasing over 0..100. -/
theorem table_antitone_aux (f : Nat → Nat)
    (hstep : ∀ i, i < 100 → f (i + 1) ≤ f i) :
    ∀ d l, l + d ≤ 100 → f (l + d) ≤ f l := by
  intro d
  induction d with
  | zero => intro l _; exact Nat.le_refl _
  | succ n ih =>
      intro l h
      have h1 : l + n < 100 := by omega
      have h2 : f (l + n + 1) ≤ f (l + n) := hstep (l + n) h1
      have h3 : f (l + n) ≤ f l := ih l (by omega)
      exact Nat.le_trans h2 h3

/-- Every curve table is monotonically non-increasing on 0..100. -/
theorem curve_table_antitone (c : rbdimmer_curve_t) (l1 l2 : Nat)
    (h : l1 ≤ l2) (h100 : l2 ≤ 100) :
    curve_table c l2 ≤ curve_table c l1 := by
  obtain ⟨d, rfl⟩ := Nat.exists_eq_add_of_le h
  exact table_antitone_aux _ (curve_table_step c) d l1 h100

/-- On well-formed half-cycles the wrapping subtraction is plain
subtraction. -/
theorem u32_sub_pulse_eq (half : Nat) (h1 : 50 ≤ half)
    (h2 : half < UINT32_MOD) :
    u32_sub half RBDIMMER_DEFAULT_PULSE_WIDTH_US =
      half - RBDIMMER_DEFAULT_PULSE_WIDTH_US := by
  unfold u32_sub RBDIMMER_DEFAULT_PULSE_WIDTH_US UINT32_MOD
  unfold UINT32_MOD at h2
  omega

/-- For middle levels 1..99 and a half-cycle in the physically sensible
range, level_to_delay is the table fraction scaled to the half-cycle and
clamped into the window. -/
theorem level_to_delay_mid (c : rbdimmer_curve_t) (l half : Nat)
    (hl1 : 1 ≤ l) (hl2 : l ≤ 99) (hh1 : 100 ≤ half)
    (hh2 : half ≤ 42949672) :
    level_to_delay l half c =
      min (max (half * curve_table c l / 100) RBDIMMER_MIN_DELAY_US)
        (half - RBDIMMER_DEFAULT_PULSE_WIDTH_US) := by
  have hT := curve_table_le_100 c l
  have hmul : half * curve_table c l % UINT32_MOD =
      half * curve_table c l := by
    apply Nat.mod_eq_of_lt
    have hle : half * curve_table c l ≤ 42949672 * 100 :=
      Nat.mul_le_mul hh2 hT
    unfold UINT32_MOD
    omega
  have hsub : u32_sub half RBDIMMER_DEFAULT_PULSE_WIDTH_US =
      half - RBDIMMER_DEFAULT_PULSE_WIDTH_US :=
    u32_sub_pulse_eq half (by omega) (by unfold UINT32_MOD; omega)
  simp only [level_to_delay, hmul, hsub]
  rw [if_neg (by omega), if_neg (by omega)]
  unfold RBDIMMER_MIN_DELAY_US RBDIMMER_DEFAULT_PULSE_WIDTH_US
  split <;> split <;> omega

/-- Bounds of level_to_delay over levels 0..100 for well-formed
half-cycles. -/
theorem level_to_delay_bounds (c : rbdimmer_curve_t) (l half : Nat)
    (hl : l ≤ 100) (hh1 : 100 ≤ half) (hh2 : half ≤ 42949672) :
    RBDIMMER_MIN_DELAY_US ≤ level_to_delay l half c ∧
      level_to_delay l half c ≤
        half - RBDIMMER_DEFAULT_PULSE_WIDTH_US := by
  rcases Nat.eq_zero_or_pos l with h0 | hpos
  · subst h0
    have hsub : u32_sub half RBDIMMER_DEFAULT_PULSE_WIDTH_US =
        half - RBDIMMER_DEFAULT_PULSE_WIDTH_US :=
      u32_sub_pulse_eq half (by omega) (by unfold UINT32_MOD; omega)
    simp only [level_to_delay, hsub]
    rw [if_neg (by omega), if_pos trivial]
    unfold RBDIMMER_MIN_DELAY_US RBDIMMER_DEFAULT_PULSE_WIDTH_US
    omega
  · rcases Nat.lt_or_ge l 100 with hmid | htop
    · rw [level_to_delay_mid c l half (by omega) (by omega) hh1 hh2]
      unfold RBDIMMER_MIN_DELAY_US RBDIMMER_DEFAULT_PULSE_WIDTH_US
      omega
    · simp only [level_to_delay]
      rw [if_pos htop]
      unfold RBDIMMER_MIN_DELAY_US RBDIMMER_DEFAULT_PULSE_WIDTH_US
      omega

/-- Monotonicity of level_to_delay in the level for well-formed
half-cycles. -/
theorem level_to_delay_antitone (c : rbdimmer_curve_t)
    (half l1 l2 : Nat) (h : l1 ≤ l2) (h100 : l2 ≤ 100)
    (hh1 : 100 ≤ half) (hh2 : half ≤ 42949672) :
    level_to_delay l2 half c ≤ level_to_delay l1 half c := by
  rcases Nat.eq_zero_or_pos l1 with h0 | hpos1
  · subst h0
    have hsub : u32_sub half RBDIMMER_DEFAULT_PULSE_WIDTH_US =
        half - RBDIMMER_DEFAULT_PULSE_WIDTH_US :=
      u32_sub_pulse_eq half (by omega) (by unfold UINT32_MOD; omega)
    have hub := (level_to_delay_bounds c l2 half h100 hh1 hh2).2
    have h0eq : level_to_delay 0 half c =
        half - RBDIMMER_DEFAULT_PULSE_WIDTH_US := by
      simp only [level_to_delay, hsub]
      rw [if_neg (by omega), if_pos trivial]
    rw [h0eq]
    exact hub
  · rcases Nat.lt_or_ge l2 100 with hmid2 | htop2
    · rw [level_to_delay_mid c l1 half (by omega) (by omega) hh1 hh2,
        level_to_delay_mid c l2 half (by omega) (by omega) hh1 hh2]
      have hTle : curve_table c l2 ≤ curve_table c l1 :=
        curve_table_antitone c l1 l2 h (by omega)
      have hdle : half * curve_table c l2 / 100 ≤
          half * curve_table c l1 / 100 :=
        Nat.div_le_div_right (Nat.mul_le_mul_left half hTle)
      exact min_le_min (max_le_max hdle (Nat.le_refl _)) (Nat.le_refl _)
    · have htope : level_to_delay l2 half c = RBDIMMER_MIN_DELAY_US := by
        simp only [level_to_delay]
        rw [if_pos htop2]
      rw [htope]
      exact (level_to_delay_bounds c l1 half (by omega) hh1 hh2).1

/-- C1 (amended): for every curve type and every half-cycle duration in
the range where the clamp window is non-empty and the uint32
multiplication cannot overflow (100 ≤ half_cycle_us ≤ 42949672, which
covers all real mains half-cycles), level_to_delay is monotonically
non-increasing in the level over 0..100, its result always lies in
[min_delay_us, half_cycle_us - pulse_width_us], and at the endpoints it
is exact: level 0 gives half_cycle_us - pulse_width_us and level 100
gives min_delay_us (min_delay_us = 50, pulse_width_us = 50). -/
theorem C1_level_to_delay_spec (c : rbdimmer_curve_t) (half : Nat)
    (hh1 : 100 ≤ half) (hh2 : half ≤ 42949672) :
    (∀ l1 l2, l1 ≤ l2 → l2 ≤ 100 →
        level_to_delay l2 half c ≤ level_to_delay l1 half c) ∧
    (∀ l, l ≤ 100 →
        RBDIMMER_MIN_DELAY_US ≤ level_to_delay l half c ∧
        level_to_delay l half c ≤
          half - RBDIMMER_DEFAULT_PULSE_WIDTH_US) ∧
    level_to_delay 0 half c = half - RBDIMMER_DEFAULT_PULSE_WIDTH_US ∧
    level_to_delay 100 half c = RBDIMMER_MIN_DELAY_US := by
  refine ⟨?_, ?_, ?_, ?_⟩
  · intro l1 l2 h h100
    exact level_to_delay_antitone c half l1 l2 h h100 hh1 hh2
  · intro l hl
    exact level_to_delay_bounds c l half hl hh1 hh2
  · have hsub : u32_sub half RBDIMMER_DEFAULT_PULSE_WIDTH_US =
        half - RBDIMMER_DEFAULT_PULSE_WIDTH_US :=
      u32_sub_pulse_eq half (by omega) (by unfold UINT32_MOD; omega)
    simp only [level_to_delay, hsub]
    rw [if_neg (by omega), if_pos trivial]
  · simp only [level_to_delay]
    rw [if_pos (by omega)]

/-- C1 witness: the spec instantiated at the RMS curve and a 50 Hz
half-cycle of 10000 microseconds. -/
theorem C1_level_to_delay_spec_witness :
    (level_to_delay 70 10000 rbdimmer_curve_t.RBDIMMER_CURVE_RMS ≤
      level_to_delay 30 10000 rbdimmer_curve_t.RBDIMMER_CURVE_RMS) ∧
    (RBDIMMER_MIN_DELAY_US ≤
        level_to_delay 50 10000 rbdimmer_curve_t.RBDIMMER_CURVE_RMS ∧
      level_to_delay 50 10000 rbdimmer_curve_t.RBDIMMER_CURVE_RMS ≤
        10000 - RBDIMMER_DEFAULT_PULSE_WIDTH_US) ∧
    level_to_delay 0 10000 rbdimmer_curve_t.RBDIMMER_CURVE_RMS =
      10000 - RBDIMMER_DEFAULT_PULSE_WIDTH_US ∧
    level_to_delay 100 10000 rbdimmer_curve_t.RBDIMMER_CURVE_RMS =
      RBDIMMER_MIN_DELAY_US := by
  obtain ⟨hmono, hbounds, h0, h100⟩ :=
    C1_level_to_delay_spec rbdimmer_curve_t.RBDIMMER_CURVE_RMS 10000
      (by decide) (by decide)
  exact ⟨hmono 30 70 (by decide) (by decide), hbounds 50 (by decide),
    h0, h100⟩

/-- C1 counterexample: as stated (for every half-cycle duration) the
claim is false.  At half_cycle_us = 60 the clamp window
[min_delay_us, half_cycle_us - pulse_width_us] = [50, 10] is empty and
the result 10 violates the lower bound; at half_cycle_us = 67108864 the
uint32 multiplication overflows and level 37 gets a strictly longer
delay than level 36, violating monotonic non-increase. -/
theorem C1_counterexample :
    ¬ (RBDIMMER_MIN_DELAY_US ≤
        level_to_delay 50 60 rbdimmer_curve_t.RBDIMMER_CURVE_LINEAR) ∧
    ¬ (level_to_delay 37 67108864 rbdimmer_curve_t.RBDIMMER_CURVE_LINEAR ≤
        level_to_delay 36 67108864 rbdimmer_curve_t.RBDIMMER_CURVE_LINEAR) := by
  decide

/-- Zero-cross detector state `rbdimmer_zero_cross_t` (rbdimmerESP32.cpp).
The `callback` and `user_data` function-pointer fields are external and
carry no state the measurement logic reads; they are tracked as a plain
flag `has_callback` plus opaque datum id for the registry claims. -/
structure rbdimmer_zero_cross_t where
  pin : Nat
  phase : Nat
  frequency : Nat
  half_cycle_us : Nat
  last_cross_time : Nat
  is_active : Bool
  frequency_measured : Bool
  measurement_count : Nat
  total_period_us : Nat
  has_callback : Bool
  deriving DecidableEq, Repr

/-- Embedding of `measure_frequency` (rbdimmerESP32.cpp).
`current_time` is the `uint32_t` value of `micros()`; `period_us` is the
wrapping `uint32_t` difference; `measurement_count` is a `uint8_t` and
`total_period_us` a `uint32_t`, hence the moduli. -/
def measure_frequency (zc : rbdimmer_zero_cross_t) (current_time : Nat) :
    rbdimmer_zero_cross_t :=
  if zc.frequency_measured then zc
  else
    let zc :=
      if 0 < zc.last_cross_time then
        let period_us := u32_sub current_time zc.last_cross_time
        if 5000 < period_us ∧ period_us < 15000 then
          let zc := { zc with
            total_period_us := (zc.total_period_us + period_us) % UINT32_MOD,
            measurement_count := (zc.measurement_count + 1) % UINT8_MOD }
          if 20 ≤ zc.measurement_count then
            let avg_half_cycle_us := zc.total_period_us / zc.measurement_count
            if 9000 ≤ avg_half_cycle_us ∧ avg_half_cycle_us ≤ 11000 then
              { zc with frequency := 50, half_cycle_us := 10000,
                        frequency_measured := true }
            else if 7500 ≤ avg_half_cycle_us ∧ avg_half_cycle_us ≤ 9166 then
              { zc with frequency := 60, half_cycle_us := 8333,
                        frequency_measured := true }
            else
              { zc with frequency := 0, frequency_measured := false,
                        measurement_count := 0, total_period_us := 0 }
          else zc
        else zc
      else zc
    { zc with last_cross_time := current_time }

/-- Detector entry initialized by `rbdimmer_register_zero_cross`
(rbdimmerESP32.cpp, after the frequency-range normalization): the
frequency argument is the already-normalized one. -/
def init_zero_cross (pin phase frequency : Nat) : rbdimmer_zero_cross_t :=
  { pin := pin, phase := phase, frequency := frequency,
    half_cycle_us :=
      if 0 < frequency then 1000000 / (2 * frequency) else 10000,
    last_cross_time := 0, is_active := true, frequency_measured := false,
    measurement_count := 0, total_period_us := 0, has_callback := false }

/-- Frequency-measurement step of `zero_cross_isr_handler`: on each
edge, `measure_frequency` runs only while the frequency is unmeasured. -/
def isr_measure_step (zc : rbdimmer_zero_cross_t) (current_time : Nat) :
    rbdimmer_zero_cross_t :=
  if zc.frequency_measured then zc else measure_frequency zc current_time

/-- Feeding a synthetic sequence of zero-cross edge timestamps through
the measurement part of the interrupt handler. -/
def feed_edges (zc : rbdimmer_zero_cross_t) (times : List Nat) :
    rbdimmer_zero_cross_t :=
  times.foldl isr_measure_step zc

/-- Edge timestamps with constant spacing, starting at `t0`. -/
def edge_times (t0 spacing n : Nat) : List Nat :=
  (List.range n).map (fun k => t0 + spacing * k)

/-- Edge timestamps alternating 4000 and 20000 microsecond spacing
(uint32 timestamps, so reduced mod 2^32). -/
def noise_time : Nat → Nat
  | 0 => 1000
  | n + 1 =>
      (noise_time n + (if n % 2 = 0 then 4000 else 20000)) % UINT32_MOD

/-- First `n` noise edge timestamps. -/
def noise_times (n : Nat) : List Nat := (List.range n).map noise_time

/-- Timestamp of the last edge after `n` noise edges (0 when none). -/
def noise_last : Nat → Nat
  | 0 => 0
  | n + 1 => noise_time n

/-- A call of `measure_frequency` whose period sample is rejected (or
that has no previous edge) only latches the new timestamp. -/
theorem measure_frequency_reject (zc : rbdimmer_zero_cross_t) (t : Nat)
    (hm : zc.frequency_measured = false)
    (hrej : zc.last_cross_time = 0 ∨
      ¬(5000 < u32_sub t zc.last_cross_time ∧
        u32_sub t zc.last_cross_time < 15000)) :
    measure_frequency zc t = { zc with last_cross_time := t } := by
  unfold measure_frequency
  rw [if_neg (by simp [hm])]
  rcases hrej with h0 | hout
  · rw [if_neg (by omega)]
  · by_cases h0 : 0 < zc.last_cross_time
    · rw [if_pos h0, if_neg hout]
    · rw [if_neg h0]

/-- Every noise timestamp is a uint32 value. -/
theorem noise_time_lt (n : Nat) : noise_time n < UINT32_MOD := by
  cases n with
  | zero => decide
  | succ m =>
      unfold noise_time
      exact Nat.mod_lt _ (by decide)

/-- The uint32 period between consecutive noise edges is exactly the
alternating spacing. -/
theorem noise_time_period (n : Nat) :
    u32_sub (noise_time (n + 1)) (noise_time n) =
      if n % 2 = 0 then 4000 else 20000 := by
  have h1 := noise_time_lt n
  have heq : noise_time (n + 1) =
      (noise_time n + (if n % 2 = 0 then 4000 else 20000)) %
        UINT32_MOD := rfl
  rw [heq]
  generalize noise_time n = a at h1 ⊢
  unfold u32_sub
  unfold UINT32_MOD at h1 ⊢
  by_cases h : n % 2 = 0
  · rw [if_pos h]
    omega
  · rw [if_neg h]
    omega

/-- Feeding a concatenation of edge sequences composes. -/
theorem feed_edges_append (zc : rbdimmer_zero_cross_t)
    (l1 l2 : List Nat) :
    feed_edges zc (l1 ++ l2) = feed_edges (feed_edges zc l1) l2 := by
  simp [feed_edges, List.foldl_append]

/-- An interrupt edge on a fresh-but-latched detector whose period
sample is rejected only latches the new timestamp. -/
theorem isr_step_on_latched (L t : Nat)
    (hrej : L = 0 ∨
      ¬(5000 < u32_sub t L ∧ u32_sub t L < 15000)) :
    isr_measure_step
        { init_zero_cross 4 0 0 with last_cross_time := L } t =
      { init_zero_cross 4 0 0 with last_cross_time := t } := by
  rw [isr_measure_step, if_neg (by simp [init_zero_cross])]
  rw [measure_frequency_reject _ _ rfl hrej]

/-- After `n` noise edges the detector has only latched the last
timestamp: nothing was accumulated and nothing was measured. -/
theorem noise_feed_state (n : Nat) :
    feed_edges (init_zero_cross 4 0 0) (noise_times n) =
      { init_zero_cross 4 0 0 with last_cross_time := noise_last n } := by
  induction n with
  | zero => rfl
  | succ m ih =>
      have hsplit : noise_times (m + 1) =
          noise_times m ++ [noise_time m] := by
        simp [noise_times, List.range_succ]
      have hrej : noise_last m = 0 ∨
          ¬(5000 < u32_sub (noise_time m) (noise_last m) ∧
            u32_sub (noise_time m) (noise_last m) < 15000) := by
        cases m with
        | zero => exact Or.inl rfl
        | succ k =>
            rcases Nat.eq_zero_or_pos (noise_time k) with hz | hpos
            · exact Or.inl hz
            · refine Or.inr ?_
              have hp := noise_time_period k
              rw [show noise_last (k + 1) = noise_time k from rfl, hp]
              by_cases hk : k % 2 = 0 <;> simp [hk]
      rw [hsplit, feed_edges_append, ih]
      have hstep := isr_step_on_latched (noise_last m) (noise_time m) hrej
      show isr_measure_step
          { init_zero_cross 4 0 0 with last_cross_time := noise_last m }
          (noise_time m) =
        { init_zero_cross 4 0 0 with last_cross_time := noise_last (m + 1) }
      rw [hstep]
      rfl

/-- C2 counterexample: fed exactly 20 edges spaced 10000 microseconds
apart, the detector is still unmeasured with frequency 0 (the first
edge only latches the timestamp, so 20 edges give only 19 period
samples, not the 20 the averaging step needs). -/
theorem C2_counterexample :
    (feed_edges (init_zero_cross 4 0 0)
        (edge_times 10000 10000 20)).frequency = 0 ∧
    (feed_edges (init_zero_cross 4 0 0)
        (edge_times 10000 10000 20)).frequency_measured = false := by
  decide

/-- C2 (amended): feeding the frequency auto-measurement a synthetic
sequence of 21 zero-cross edges spaced exactly 10000 microseconds apart
(the first edge only latches the timestamp, so 21 edges supply the 20
period samples the detector averages) yields frequency 50 and
half_cycle_us 10000; 21 edges spaced 8333 microseconds apart yield
frequency 60; edges alternating 4000 and 20000 microsecond spacing
never set frequency_measured, however many arrive, and frequency stays
0. -/
theorem C2_frequency_measurement :
    ((feed_edges (init_zero_cross 4 0 0)
        (edge_times 10000 10000 21)).frequency = 50 ∧
      (feed_edges (init_zero_cross 4 0 0)
        (edge_times 10000 10000 21)).half_cycle_us = 10000 ∧
      (feed_edges (init_zero_cross 4 0 0)
        (edge_times 10000 10000 21)).frequency_measured = true) ∧
    ((feed_edges (init_zero_cross 4 0 0)
        (edge_times 10000 8333 21)).frequency = 60 ∧
      (feed_edges (init_zero_cross 4 0 0)
        (edge_times 10000 8333 21)).frequency_measured = true) ∧
    (∀ n,
      (feed_edges (init_zero_cross 4 0 0)
        (noise_times n)).frequency_measured = false ∧
      (feed_edges (init_zero_cross 4 0 0)
        (noise_times n)).frequency = 0) := by
  refine ⟨⟨by decide, by decide, by decide⟩, ⟨by decide, by decide⟩, ?_⟩
  intro n
  rw [noise_feed_state n]
  exact ⟨rfl, rfl⟩

/-- Detector state used to probe the period filter: one edge already
latched at 1000 microseconds, nothing accumulated yet. -/
def c6_probe : rbdimmer_zero_cross_t :=
  { pin := 4, phase := 0, frequency := 0, half_cycle_us := 10000,
    last_cross_time := 1000, is_active := true,
    frequency_measured := false, measurement_count := 0,
    total_period_us := 0, has_callback := false }

/-- C6 counterexample: period samples of exactly 5000 and exactly
15000 microseconds, which the claim's closed interval [5000, 15000]
would accept, are discarded by the code (its test is the strict
`period_us > 5000 && period_us < 15000`). -/
theorem C6_counterexample :
    u32_sub 6000 c6_probe.last_cross_time = 5000 ∧
    (measure_frequency c6_probe 6000).measurement_count = 0 ∧
    (measure_frequency c6_probe 6000).total_period_us = 0 ∧
    u32_sub 16000 c6_probe.last_cross_time = 15000 ∧
    (measure_frequency c6_probe 16000).measurement_count = 0 ∧
    (measure_frequency c6_probe 16000).total_period_us = 0 := by
  decide

/-- C6 (amended): during the accumulation phase (while fewer than 20
samples have been counted and the frequency is unmeasured), a period
sample between consecutive edges is added to the accumulated total and
counted if and only if it lies strictly inside the open interval
(5000, 15000) microseconds; every sample outside is discarded without
touching the accumulator or the sample count (only the edge timestamp
is latched). -/
theorem C6_period_filter (zc : rbdimmer_zero_cross_t) (t : Nat)
    (hm : zc.frequency_measured = false)
    (h0 : 0 < zc.last_cross_time)
    (hcnt : zc.measurement_count + 1 < 20) :
    ((5000 < u32_sub t zc.last_cross_time ∧
        u32_sub t zc.last_cross_time < 15000) →
      measure_frequency zc t = { zc with
        total_period_us :=
          (zc.total_period_us + u32_sub t zc.last_cross_time) %
            UINT32_MOD,
        measurement_count := (zc.measurement_count + 1) % UINT8_MOD,
        last_cross_time := t }) ∧
    (¬(5000 < u32_sub t zc.last_cross_time ∧
        u32_sub t zc.last_cross_time < 15000) →
      measure_frequency zc t = { zc with last_cross_time := t }) := by
  constructor
  · intro hin
    have hc : ¬ 20 ≤ (zc.measurement_count + 1) % UINT8_MOD := by
      unfold UINT8_MOD
      omega
    unfold measure_frequency
    rw [if_neg (by simp [hm]), if_pos h0, if_pos hin]
    simp only []
    rw [if_neg hc]
  · intro hout
    exact measure_frequency_reject zc t hm (Or.inr hout)

/-- C6 witness: on the probe state, a 10000 microsecond period is
accumulated and counted, while a 4500 microsecond period is
discarded. -/
theorem C6_period_filter_witness :
    measure_frequency c6_probe 11000 = { c6_probe with
      total_period_us := 10000, measurement_count := 1,
      last_cross_time := 11000 } ∧
    measure_frequency c6_probe 5500 =
      { c6_probe with last_cross_time := 5500 } := by
  constructor
  · have h :=
      (C6_period_filter c6_probe 11000 rfl (by decide) (by decide)).1
        (by decide)
    rw [h]
    decide
  · have h :=
      (C6_period_filter c6_probe 5500 rfl (by decide) (by decide)).2
        (by decide)
    rw [h]

/-- Dimmer channel state `rbdimmer_channel_s` (rbdimmerESP32.cpp).  The
two `esp_timer_handle_t` fields are external resources; what the code
does to them (and to the GPIO) is tracked in `ChannelSim`. -/
structure rbdimmer_channel_t where
  gpio_pin : Nat
  phase : Nat
  level_percent : Nat
  prev_level_percent : Nat
  current_delay : Nat
  is_active : Bool
  needs_update : Bool
  curve_type : rbdimmer_curve_t
  timer_state : timer_state_t
  deriving DecidableEq, Repr

/-- A channel together with its externally visible resources: the GPIO
output level last written for its pin, and the pending one-shot
deadline of each of its two timers (`none` = stopped). -/
structure ChannelSim where
  channel : rbdimmer_channel_t
  pin_level : Nat
  delay_timer : Option Nat
  pulse_timer : Option Nat
  deriving DecidableEq, Repr

/-- Embedding of `find_zero_cross_by_phase`: the first registered
detector whose phase matches, scanning in registration order. -/
def find_zero_cross_by_phase (zcs : List rbdimmer_zero_cross_t)
    (phase : Nat) : Option rbdimmer_zero_cross_t :=
  zcs.find? (fun zc => zc.phase == phase)

/-- Embedding of `update_channel_delay`, with the detector table passed
explicitly (in C it is the global `zero_cross_manager`). -/
def update_channel_delay (zcs : List rbdimmer_zero_cross_t)
    (channel : rbdimmer_channel_t) : rbdimmer_channel_t :=
  if channel.needs_update = false then channel
  else
    match find_zero_cross_by_phase zcs channel.phase with
    | none => channel
    | some zc =>
        let new_delay := level_to_delay channel.level_percent
          zc.half_cycle_us channel.curve_type
        let channel :=
          if new_delay ≠ channel.current_delay then
            { channel with current_delay := new_delay }
          else channel
        { channel with needs_update := false }

/-- Embedding of `rbdimmer_set_level`.  The NULL-handle guard has no
counterpart (channels are values here); levels above 100 are clamped. -/
def rbdimmer_set_level (zcs : List rbdimmer_zero_cross_t)
    (channel : rbdimmer_channel_t) (level_percent : Nat) :
    rbdimmer_err_t × rbdimmer_channel_t :=
  let level_percent := if 100 < level_percent then 100 else level_percent
  if channel.level_percent ≠ level_percent then
    let channel := { channel with
      prev_level_percent := channel.level_percent,
      level_percent := level_percent,
      needs_update := true }
    let channel :=
      if channel.is_active then update_channel_delay zcs channel
      else channel
    (rbdimmer_err_t.RBDIMMER_OK, channel)
  else (rbdimmer_err_t.RBDIMMER_OK, channel)

/-- Embedding of `rbdimmer_set_curve`. -/
def rbdimmer_set_curve (zcs : List rbdimmer_zero_cross_t)
    (channel : rbdimmer_channel_t) (curve_type : rbdimmer_curve_t) :
    rbdimmer_err_t × rbdimmer_channel_t :=
  if curve_type ≠ channel.curve_type then
    let channel :=
      { channel with curve_type := curve_type, needs_update := true }
    let channel :=
      if channel.is_active then update_channel_delay zcs channel
      else channel
    (rbdimmer_err_t.RBDIMMER_OK, channel)
  else (rbdimmer_err_t.RBDIMMER_OK, channel)

/-- Embedding of `rbdimmer_set_active` over the simulation state: the
deactivation branch writes the GPIO low, stops both timers and resets
the state machine. -/
def rbdimmer_set_active (s : ChannelSim) (active : Bool) :
    rbdimmer_err_t × ChannelSim :=
  if s.channel.is_active ≠ active then
    let s := { s with channel :=
      { s.channel with is_active := active, needs_update := true } }
    if active = false then
      (rbdimmer_err_t.RBDIMMER_OK,
        { s with pin_level := 0, delay_timer := none, pulse_timer := none,
                 channel := { s.channel with
                   timer_state := timer_state_t.TIMER_STATE_IDLE } })
    else (rbdimmer_err_t.RBDIMMER_OK, s)
  else (rbdimmer_err_t.RBDIMMER_OK, s)

/-- Per-channel body of the loop in `zero_cross_isr_handler`: an active
channel on the matching phase is armed only from Idle (the defensive
`esp_timer_stop` pair followed by `esp_timer_start_once` nets to
overwriting the pending deadlines). -/
def zero_cross_arm_channel (s : ChannelSim) (zc_phase : Nat) :
    ChannelSim :=
  if s.channel.is_active ∧ s.channel.phase = zc_phase then
    if s.channel.timer_state = timer_state_t.TIMER_STATE_IDLE then
      { s with
        delay_timer := some s.channel.current_delay,
        pulse_timer := some
          (s.channel.current_delay + RBDIMMER_DEFAULT_PULSE_WIDTH_US),
        channel := { s.channel with
          timer_state := timer_state_t.TIMER_STATE_DELAY } }
    else s
  else s

/-- Embedding of `delay_timer_callback` (the NULL-handle guard has no
counterpart). -/
def delay_timer_callback (s : ChannelSim) : ChannelSim :=
  if s.channel.timer_state ≠ timer_state_t.TIMER_STATE_DELAY then s
  else
    { s with pin_level := 1,
             channel := { s.channel with
               timer_state := timer_state_t.TIMER_STATE_PULSE_ON } }

/-- Embedding of `pulse_timer_callback` (the NULL-handle guard has no
counterpart). -/
def pulse_timer_callback (s : ChannelSim) : ChannelSim :=
  if s.channel.timer_state ≠ timer_state_t.TIMER_STATE_PULSE_ON then s
  else
    { s with pin_level := 0,
             channel := { s.channel with
               timer_state := timer_state_t.TIMER_STATE_IDLE } }

/-- C3: the firing state machine never double-fires.  A zero-cross edge
arms the delay and pulse timers of an (active, phase-matching) channel
only when its timer_state is Idle, moving it to Delay and leaving the
output pin untouched; when the channel is not Idle the edge changes
nothing at all for that channel; a delay-timer callback outside the
Delay state and a pulse-timer callback outside the PulseOn state leave
the output pin and the state unchanged. -/
theorem C3_no_double_fire (s : ChannelSim) (zc_phase : Nat) :
    (s.channel.timer_state ≠ timer_state_t.TIMER_STATE_IDLE →
      zero_cross_arm_channel s zc_phase = s) ∧
    (s.channel.timer_state = timer_state_t.TIMER_STATE_IDLE →
      s.channel.is_active = true → s.channel.phase = zc_phase →
      (zero_cross_arm_channel s zc_phase).channel.timer_state =
          timer_state_t.TIMER_STATE_DELAY ∧
        (zero_cross_arm_channel s zc_phase).delay_timer =
          some s.channel.current_delay ∧
        (zero_cross_arm_channel s zc_phase).pulse_timer =
          some (s.channel.current_delay +
            RBDIMMER_DEFAULT_PULSE_WIDTH_US) ∧
        (zero_cross_arm_channel s zc_phase).pin_level = s.pin_level) ∧
    (s.channel.timer_state ≠ timer_state_t.TIMER_STATE_DELAY →
      delay_timer_callback s = s) ∧
    (s.channel.timer_state ≠ timer_state_t.TIMER_STATE_PULSE_ON →
      pulse_timer_callback s = s) := by
  refine ⟨?_, ?_, ?_, ?_⟩
  · intro h
    unfold zero_cross_arm_channel
    by_cases ha : s.channel.is_active ∧ s.channel.phase = zc_phase
    · rw [if_pos ha, if_neg h]
    · rw [if_neg ha]
  · intro hidle hact hph
    unfold zero_cross_arm_channel
    rw [if_pos ⟨by simp [hact], hph⟩, if_pos hidle]
    exact ⟨rfl, rfl, rfl, rfl⟩
  · intro h
    unfold delay_timer_callback
    rw [if_pos h]
  · intro h
    unfold pulse_timer_callback
    rw [if_pos h]

/-- Channel simulation state sitting in Idle, used as witness input. -/
def c3_idle : ChannelSim :=
  { channel := { gpio_pin := 5, phase := 0, level_percent := 50,
                 prev_level_percent := 255, current_delay := 5000,
                 is_active := true, needs_update := false,
                 curve_type := rbdimmer_curve_t.RBDIMMER_CURVE_LINEAR,
                 timer_state := timer_state_t.TIMER_STATE_IDLE },
    pin_level := 0, delay_timer := none, pulse_timer := none }

/-- Channel simulation state sitting in Delay, used as witness input. -/
def c3_delay : ChannelSim :=
  { c3_idle with channel := { c3_idle.channel with
      timer_state := timer_state_t.TIMER_STATE_DELAY } }

/-- C3 witness: a Delay-state channel is untouched by an edge and by
the pulse callback; an Idle channel is armed; a callback in the wrong
state is a no-op. -/
theorem C3_no_double_fire_witness :
    zero_cross_arm_channel c3_delay 0 = c3_delay ∧
    (zero_cross_arm_channel c3_idle 0).channel.timer_state =
      timer_state_t.TIMER_STATE_DELAY ∧
    (zero_cross_arm_channel c3_idle 0).delay_timer = some 5000 ∧
    pulse_timer_callback c3_delay = c3_delay ∧
    delay_timer_callback c3_idle = c3_idle := by
  refine ⟨(C3_no_double_fire c3_delay 0).1 (by decide), ?_, ?_, ?_, ?_⟩
  · exact ((C3_no_double_fire c3_idle 0).2.1 rfl rfl rfl).1
  · have h := ((C3_no_double_fire c3_idle 0).2.1 rfl rfl rfl).2.1
    rw [h]
    rfl
  · exact (C3_no_double_fire c3_delay 0).2.2.2 (by decide)
  · exact (C3_no_double_fire c3_idle 0).2.2.1 (by decide)

/-- An (API-unreachable) channel state that is inactive yet has its pin
high, a pending timer and a non-Idle firing state. -/
def c4_bad : ChannelSim :=
  { channel := { gpio_pin := 5, phase := 0, level_percent := 50,
                 prev_level_percent := 255, current_delay := 5000,
                 is_active := false, needs_update := false,
                 curve_type := rbdimmer_curve_t.RBDIMMER_CURVE_LINEAR,
                 timer_state := timer_state_t.TIMER_STATE_DELAY },
    pin_level := 1, delay_timer := some 5000, pulse_timer := some 5050 }

/-- C4 counterexample: when the channel is already inactive the setter
takes the equal-value no-op branch, so for an arbitrary prior state
with the pin high and a timer pending nothing is forced low, stopped,
or reset to Idle — contradicting the claim's "for every prior state of
the channel (including when the channel was already inactive)". -/
theorem C4_counterexample :
    (rbdimmer_set_active c4_bad false).2.pin_level = 1 ∧
    (rbdimmer_set_active c4_bad false).2.channel.timer_state =
      timer_state_t.TIMER_STATE_DELAY ∧
    (rbdimmer_set_active c4_bad false).2.delay_timer = some 5000 := by
  decide

/-- C4 (amended): when the channel is currently active,
rbdimmer_set_active(channel, false) leaves the output pin logically
low, both timers stopped and timer_state Idle, whatever the prior pin,
timer and firing state; when the channel is already inactive the call
returns OK and leaves the whole state unchanged. -/
theorem C4_set_active_false (s : ChannelSim) :
    (s.channel.is_active = true →
      (rbdimmer_set_active s false).2.pin_level = 0 ∧
        (rbdimmer_set_active s false).2.delay_timer = none ∧
        (rbdimmer_set_active s false).2.pulse_timer = none ∧
        (rbdimmer_set_active s false).2.channel.timer_state =
          timer_state_t.TIMER_STATE_IDLE ∧
        (rbdimmer_set_active s false).1 =
          rbdimmer_err_t.RBDIMMER_OK) ∧
    (s.channel.is_active = false →
      rbdimmer_set_active s false =
        (rbdimmer_err_t.RBDIMMER_OK, s)) := by
  constructor
  · intro h
    unfold rbdimmer_set_active
    rw [if_pos (by simp [h]), if_pos rfl]
    exact ⟨rfl, rfl, rfl, rfl, rfl⟩
  · intro h
    unfold rbdimmer_set_active
    rw [if_neg (by simp [h])]

/-- C4 witness: deactivating the Delay-state active channel forces the
pin low, stops both timers and returns to Idle; repeating the call on
the now-inactive result is a no-op. -/
theorem C4_set_active_false_witness :
    (rbdimmer_set_active c3_delay false).2.pin_level = 0 ∧
    (rbdimmer_set_active c3_delay false).2.delay_timer = none ∧
    (rbdimmer_set_active c3_delay false).2.pulse_timer = none ∧
    (rbdimmer_set_active c3_delay false).2.channel.timer_state =
      timer_state_t.TIMER_STATE_IDLE ∧
    rbdimmer_set_active c4_bad false =
      (rbdimmer_err_t.RBDIMMER_OK, c4_bad) := by
  have h1 := (C4_set_active_false c3_delay).1 rfl
  have h2 := (C4_set_active_false c4_bad).2 rfl
  exact ⟨h1.1, h1.2.1, h1.2.2.1, h1.2.2.2.1, h2⟩

/-- Detector table with one phase-0 detector (half-cycle 10000). -/
def c5_zcs : List rbdimmer_zero_cross_t := [init_zero_cross 4 0 0]

/-- An inactive channel whose stored delay (1234) does not match its
level's table delay for the registered half-cycle. -/
def c5_sim : ChannelSim :=
  { channel := { gpio_pin := 5, phase := 0, level_percent := 50,
                 prev_level_percent := 255, current_delay := 1234,
                 is_active := false, needs_update := false,
                 curve_type := rbdimmer_curve_t.RBDIMMER_CURVE_LINEAR,
                 timer_state := timer_state_t.TIMER_STATE_IDLE },
    pin_level := 0, delay_timer := none, pulse_timer := none }

/-- C5 counterexample: rbdimmer_set_active(channel, true) marks
needs_update but has no recompute branch, so the channel is active
after the call with a stale current_delay (1234) instead of the curve
table value for its level and its phase's half-cycle (5000) — the
claim's "immediately recomputes whenever the channel is active after
the call" fails for this setter. -/
theorem C5_counterexample :
    (rbdimmer_set_active c5_sim true).2.channel.is_active = true ∧
    (rbdimmer_set_active c5_sim true).2.channel.needs_update = true ∧
    find_zero_cross_by_phase c5_zcs
        (rbdimmer_set_active c5_sim true).2.channel.phase =
      some (init_zero_cross 4 0 0) ∧
    level_to_delay
        (rbdimmer_set_active c5_sim true).2.channel.level_percent
        (init_zero_cross 4 0 0).half_cycle_us
        (rbdimmer_set_active c5_sim true).2.channel.curve_type = 5000 ∧
    (rbdimmer_set_active c5_sim true).2.channel.current_delay =
      1234 := by
  decide

/-- When the update flag is set and the phase has a detector,
update_channel_delay stores the table delay and clears the flag. -/
theorem update_channel_delay_eq (zcs : List rbdimmer_zero_cross_t)
    (ch : rbdimmer_channel_t) (zc : rbdimmer_zero_cross_t)
    (hu : ch.needs_update = true)
    (hz : find_zero_cross_by_phase zcs ch.phase = some zc) :
    update_channel_delay zcs ch =
      { ch with
        current_delay := level_to_delay ch.level_percent
          zc.half_cycle_us ch.curve_type,
        needs_update := false } := by
  unfold update_channel_delay
  rw [if_neg (by simp [hu])]
  simp only [hz]
  by_cases hd : level_to_delay ch.level_percent zc.half_cycle_us
      ch.curve_type = ch.current_delay
  · rw [if_neg (not_not_intro hd), hd]
  · rw [if_pos hd]

/-- C5 (amended): rbdimmer_set_level and rbdimmer_set_curve are no-ops
when the new value equals the current one; otherwise they mark
needs_update and, when the channel is active and its phase has a
registered detector, immediately recompute current_delay_us from the
curve table and that detector's half_cycle_us (clearing needs_update
again), while on an inactive channel only the mark remains.
rbdimmer_set_active is a no-op on an equal value and otherwise only
marks needs_update — it never recomputes current_delay_us (its
deactivation branch just forces the output low, stops the timers and
returns to Idle). -/
theorem C5_setters (zcs : List rbdimmer_zero_cross_t)
    (c : rbdimmer_channel_t) (s : ChannelSim) (l : Nat)
    (ct : rbdimmer_curve_t) (b : Bool) (zc : rbdimmer_zero_cross_t) :
    (l ≤ 100 → c.level_percent = l →
      rbdimmer_set_level zcs c l = (rbdimmer_err_t.RBDIMMER_OK, c)) ∧
    (l ≤ 100 → c.level_percent ≠ l → c.is_active = true →
      find_zero_cross_by_phase zcs c.phase = some zc →
      rbdimmer_set_level zcs c l = (rbdimmer_err_t.RBDIMMER_OK,
        { c with prev_level_percent := c.level_percent,
                 level_percent := l,
                 current_delay :=
                   level_to_delay l zc.half_cycle_us c.curve_type,
                 needs_update := false })) ∧
    (l ≤ 100 → c.level_percent ≠ l → c.is_active = false →
      rbdimmer_set_level zcs c l = (rbdimmer_err_t.RBDIMMER_OK,
        { c with prev_level_percent := c.level_percent,
                 level_percent := l, needs_update := true })) ∧
    (ct = c.curve_type →
      rbdimmer_set_curve zcs c ct = (rbdimmer_err_t.RBDIMMER_OK, c)) ∧
    (ct ≠ c.curve_type → c.is_active = true →
      find_zero_cross_by_phase zcs c.phase = some zc →
      rbdimmer_set_curve zcs c ct = (rbdimmer_err_t.RBDIMMER_OK,
        { c with curve_type := ct,
                 current_delay := level_to_delay c.level_percent
                   zc.half_cycle_us ct,
                 needs_update := false })) ∧
    (ct ≠ c.curve_type → c.is_active = false →
      rbdimmer_set_curve zcs c ct = (rbdimmer_err_t.RBDIMMER_OK,
        { c with curve_type := ct, needs_update := true })) ∧
    (s.channel.is_active = b →
      rbdimmer_set_active s b = (rbdimmer_err_t.RBDIMMER_OK, s)) ∧
    (s.channel.is_active ≠ b →
      (rbdimmer_set_active s b).2.channel.needs_update = true ∧
      (rbdimmer_set_active s b).2.channel.current_delay =
        s.channel.current_delay) := by
  refine ⟨?_, ?_, ?_, ?_, ?_, ?_, ?_, ?_⟩
  · intro hl heq
    simp only [rbdimmer_set_level]
    rw [show (if 100 < l then 100 else l) = l from if_neg (by omega),
      if_neg (not_not_intro heq)]
  · intro hl hne hact hz
    simp only [rbdimmer_set_level]
    rw [show (if 100 < l then 100 else l) = l from if_neg (by omega),
      if_pos hne, if_pos (show _ = true from hact),
      update_channel_delay_eq zcs
        { gpio_pin := c.gpio_pin, phase := c.phase, level_percent := l,
          prev_level_percent := c.level_percent,
          current_delay := c.current_delay, is_active := c.is_active,
          needs_update := true, curve_type := c.curve_type,
          timer_state := c.timer_state } zc rfl hz]
  · intro hl hne hinact
    simp only [rbdimmer_set_level]
    rw [show (if 100 < l then 100 else l) = l from if_neg (by omega),
      if_pos hne, if_neg (show ¬_ = true by rw [show _ = false from hinact]; decide)]
  · intro heq
    simp only [rbdimmer_set_curve]
    rw [if_neg (not_not_intro heq)]
  · intro hne hact hz
    simp only [rbdimmer_set_curve]
    rw [if_pos hne, if_pos (show _ = true from hact),
      update_channel_delay_eq zcs
        { gpio_pin := c.gpio_pin, phase := c.phase,
          level_percent := c.level_percent,
          prev_level_percent := c.prev_level_percent,
          current_delay := c.current_delay, is_active := c.is_active,
          needs_update := true, curve_type := ct,
          timer_state := c.timer_state } zc rfl hz]
  · intro hne hinact
    simp only [rbdimmer_set_curve]
    rw [if_pos hne, if_neg (show ¬_ = true by rw [show _ = false from hinact]; decide)]
  · intro heq
    simp only [rbdimmer_set_active]
    rw [if_neg (not_not_intro heq)]
  · intro hne
    simp only [rbdimmer_set_active]
    rw [if_pos hne]
    cases b
    · rw [if_pos rfl]
      exact ⟨rfl, rfl⟩
    · rw [if_neg (by decide)]
      exact ⟨rfl, rfl⟩

/-- Active channel used as C5 witness input. -/
def c5_active : rbdimmer_channel_t :=
  { gpio_pin := 5, phase := 0, level_percent := 50,
    prev_level_percent := 255, current_delay := 5000,
    is_active := true, needs_update := false,
    curve_type := rbdimmer_curve_t.RBDIMMER_CURVE_LINEAR,
    timer_state := timer_state_t.TIMER_STATE_IDLE }

/-- C5 witness: on a concrete active channel with a phase-0 detector,
an equal-value set_level is a no-op, a set_level to 80 recomputes the
delay to 2000, a repeated set_active(true) is a no-op, and a
set_active(false) marks needs_update without recomputing. -/
theorem C5_setters_witness :
    rbdimmer_set_level c5_zcs c5_active 50 =
      (rbdimmer_err_t.RBDIMMER_OK, c5_active) ∧
    rbdimmer_set_level c5_zcs c5_active 80 =
      (rbdimmer_err_t.RBDIMMER_OK,
        { c5_active with prev_level_percent := 50, level_percent := 80,
                         current_delay := 2000,
                         needs_update := false }) ∧
    rbdimmer_set_active c3_idle true =
      (rbdimmer_err_t.RBDIMMER_OK, c3_idle) ∧
    ((rbdimmer_set_active c3_idle false).2.channel.needs_update = true ∧
      (rbdimmer_set_active c3_idle false).2.channel.current_delay =
        c3_idle.channel.current_delay) := by
  obtain ⟨h1, h2, _, _, _, _, h7, _⟩ :=
    C5_setters c5_zcs c5_active c3_idle 80
      rbdimmer_curve_t.RBDIMMER_CURVE_LINEAR true (init_zero_cross 4 0 0)
  obtain ⟨_, _, _, _, _, _, _, k8⟩ :=
    C5_setters c5_zcs c5_active c3_idle 80
      rbdimmer_curve_t.RBDIMMER_CURVE_LINEAR false (init_zero_cross 4 0 0)
  refine ⟨?_, ?_, h7 rfl, k8 (by decide)⟩
  · obtain ⟨g1, _⟩ :=
      C5_setters c5_zcs c5_active c3_idle 50
        rbdimmer_curve_t.RBDIMMER_CURVE_LINEAR true (init_zero_cross 4 0 0)
    exact g1 (by decide) rfl
  · have h := h2 (by decide) (by decide) rfl (by decide)
    rw [h]
    decide

/-- External-resource effect log: pins configured, GPIO writes (pin,
level), timers created and deleted, heap allocations and frees. -/
structure SysEffects where
  gpio_configured : List Nat
  gpio_writes : List (Nat × Nat)
  timers_created : Nat
  timers_deleted : Nat
  mallocs : Nat
  frees : Nat
  deriving DecidableEq, Repr

/-- Empty effect log. -/
def SysEffects.empty : SysEffects :=
  { gpio_configured := [], gpio_writes := [], timers_created := 0,
    timers_deleted := 0, mallocs := 0, frees := 0 }

/-- Global manager state: the active prefix of the
`zero_cross_manager` array (its count is the list length), the
`dimmer_manager` channel array, and the ISR-service flag. -/
structure DimmerState where
  zero_cross : List rbdimmer_zero_cross_t
  channels : List rbdimmer_channel_t
  isr_installed : Bool
  deriving DecidableEq, Repr

/-- Channel creation configuration `rbdimmer_config_t`
(rbdimmerESP32.h). -/
structure rbdimmer_config_t where
  gpio_pin : Nat
  phase : Nat
  initial_level : Nat
  curve_type : rbdimmer_curve_t
  deriving DecidableEq, Repr

/-- Embedding of `rbdimmer_register_zero_cross`.  The external calls
on the success path (gpio_config, ISR service install, handler add)
are logged in the effect record; their failure returns are not
modelled. -/
def rbdimmer_register_zero_cross (st : DimmerState) (eff : SysEffects)
    (pin phase frequency : Nat) :
    rbdimmer_err_t × DimmerState × SysEffects :=
  if RBDIMMER_MAX_PHASES ≤ phase then
    (rbdimmer_err_t.RBDIMMER_ERR_INVALID_ARG, st, eff)
  else if GPIO_NUM_MAX ≤ pin then
    (rbdimmer_err_t.RBDIMMER_ERR_INVALID_ARG, st, eff)
  else
    let frequency :=
      if frequency < RBDIMMER_FREQUENCY_MIN ∨
          RBDIMMER_FREQUENCY_MAX < frequency
      then RBDIMMER_DEFAULT_FREQUENCY else frequency
    if st.zero_cross.any (fun zc => zc.phase == phase) then
      (rbdimmer_err_t.RBDIMMER_ERR_ALREADY_EXIST, st, eff)
    else if RBDIMMER_MAX_PHASES ≤ st.zero_cross.length then
      (rbdimmer_err_t.RBDIMMER_ERR_NO_MEMORY, st, eff)
    else
      let eff :=
        { eff with gpio_configured := eff.gpio_configured ++ [pin] }
      let st := { st with isr_installed := true }
      (rbdimmer_err_t.RBDIMMER_OK,
        { st with zero_cross :=
            st.zero_cross ++ [init_zero_cross pin phase frequency] },
        eff)

/-- Embedding of `rbdimmer_create_channel`.  The NULL-pointer guards
have no counterpart (config is a value and the handle is returned as
an Option); malloc, gpio_config, gpio_set_level and the two
esp_timer_create calls are embedded along their success paths and
logged; the full-registry branch rolls the timers and the allocation
back exactly as the C code does. -/
def rbdimmer_create_channel (st : DimmerState) (eff : SysEffects)
    (config : rbdimmer_config_t) :
    rbdimmer_err_t × Option rbdimmer_channel_t × DimmerState ×
      SysEffects :=
  if GPIO_NUM_MAX ≤ config.gpio_pin then
    (rbdimmer_err_t.RBDIMMER_ERR_INVALID_ARG, none, st, eff)
  else
    match find_zero_cross_by_phase st.zero_cross config.phase with
    | none => (rbdimmer_err_t.RBDIMMER_ERR_NOT_FOUND, none, st, eff)
    | some zc =>
        let eff := { eff with mallocs := eff.mallocs + 1 }
        let eff := { eff with
          gpio_configured := eff.gpio_configured ++ [config.gpio_pin],
          gpio_writes := eff.gpio_writes ++ [(config.gpio_pin, 0)] }
        let eff := { eff with timers_created := eff.timers_created + 2 }
        let new_channel : rbdimmer_channel_t :=
          { gpio_pin := config.gpio_pin, phase := config.phase,
            level_percent :=
              if 100 < config.initial_level then 100
              else config.initial_level,
            prev_level_percent := 255,
            current_delay := level_to_delay
              (if 100 < config.initial_level then 100
               else config.initial_level)
              zc.half_cycle_us config.curve_type,
            is_active := true, needs_update := true,
            curve_type := config.curve_type,
            timer_state := timer_state_t.TIMER_STATE_IDLE }
        if st.channels.length < RBDIMMER_MAX_CHANNELS then
          (rbdimmer_err_t.RBDIMMER_OK, some new_channel,
            { st with channels := st.channels ++ [new_channel] }, eff)
        else
          (rbdimmer_err_t.RBDIMMER_ERR_NO_MEMORY, none, st,
            { eff with timers_deleted := eff.timers_deleted + 2,
                       frees := eff.frees + 1 })

/-- C7: creating a channel on a phase with no registered zero-cross
detector returns NotFound and allocates no resources: no allocation,
timer creation, or GPIO configuration is logged, no channel handle is
produced, and the manager state (channel registry contents and count
included) is unchanged. -/
theorem C7_create_channel_not_found (st : DimmerState)
    (eff : SysEffects) (config : rbdimmer_config_t)
    (hpin : config.gpio_pin < GPIO_NUM_MAX)
    (hz : find_zero_cross_by_phase st.zero_cross config.phase = none) :
    rbdimmer_create_channel st eff config =
      (rbdimmer_err_t.RBDIMMER_ERR_NOT_FOUND, none, st, eff) := by
  unfold rbdimmer_create_channel
  rw [if_neg (by omega)]
  simp only [hz]

/-- Manager state holding one phase-0 detector and no channels. -/
def c7_state : DimmerState :=
  { zero_cross := [init_zero_cross 4 0 0], channels := [],
    isr_installed := true }

/-- Channel configuration referencing the unregistered phase 1. -/
def c7_config : rbdimmer_config_t :=
  { gpio_pin := 5, phase := 1, initial_level := 50,
    curve_type := rbdimmer_curve_t.RBDIMMER_CURVE_LINEAR }

/-- C7 witness: the concrete NotFound call changes nothing. -/
theorem C7_create_channel_not_found_witness :
    rbdimmer_create_channel c7_state SysEffects.empty c7_config =
      (rbdimmer_err_t.RBDIMMER_ERR_NOT_FOUND, none, c7_state,
        SysEffects.empty) :=
  C7_create_channel_not_found c7_state SysEffects.empty c7_config
    (by decide) (by decide)

/-- C8: registering a second detector for an already-taken phase_id
returns AlreadyExists and the failed call changes nothing: every
registered detector keeps its state (pin, frequency, half_cycle_us,
measurement fields, callback flag, activity), the detector count, the
ISR flag and the external effect log are all untouched. -/
theorem C8_register_duplicate (st : DimmerState) (eff : SysEffects)
    (pin phase frequency : Nat)
    (hphase : phase < RBDIMMER_MAX_PHASES)
    (hpin : pin < GPIO_NUM_MAX)
    (hdup : st.zero_cross.any (fun zc => zc.phase == phase) = true) :
    rbdimmer_register_zero_cross st eff pin phase frequency =
      (rbdimmer_err_t.RBDIMMER_ERR_ALREADY_EXIST, st, eff) := by
  simp only [rbdimmer_register_zero_cross]
  rw [if_neg (by omega), if_neg (by omega), if_pos hdup]

/-- C8 witness: re-registering phase 0 (already held by the detector
on pin 4) from pin 5 at 50 Hz fails and leaves the registry alone. -/
theorem C8_register_duplicate_witness :
    rbdimmer_register_zero_cross c7_state SysEffects.empty 5 0 50 =
      (rbdimmer_err_t.RBDIMMER_ERR_ALREADY_EXIST, c7_state,
        SysEffects.empty) :=
  C8_register_duplicate c7_state SysEffects.empty 5 0 50
    (by decide) (by decide) (by decide)

/-- C10: the Custom curve type silently falls through to the linear
table inside level_to_delay's switch (its `default` case), so for
every level and half-cycle the Custom delay equals the Linear delay —
in particular on the claim's range 1..99 — and Custom is never
rejected: rbdimmer_set_curve accepts it and returns OK. -/
theorem C10_custom_falls_back_to_linear :
    (∀ level half,
      level_to_delay level half
          rbdimmer_curve_t.RBDIMMER_CURVE_CUSTOM =
        level_to_delay level half
          rbdimmer_curve_t.RBDIMMER_CURVE_LINEAR) ∧
    (∀ zcs c,
      (rbdimmer_set_curve zcs c
          rbdimmer_curve_t.RBDIMMER_CURVE_CUSTOM).1 =
        rbdimmer_err_t.RBDIMMER_OK) := by
  constructor
  · intro level half
    rfl
  · intro zcs c
    unfold rbdimmer_set_curve
    by_cases h :
        rbdimmer_curve_t.RBDIMMER_CURVE_CUSTOM ≠ c.curve_type
    · rw [if_pos h]
    · rw [if_neg h]

end RBDimmer
